import Mathlib

/-!
Verification of the real-time transaction-status synchronization client:
a shallow embedding of the step-state derivation (`getStepStatus` in
`TransactionStatus.jsx`), the push-channel wrapper (`websocket.js`),
the session-to-room binding (`AuthContext.jsx`) and the retry behaviour of
the HTTP request layer, together with theorems settling the specified
behavioural properties.
-/

namespace StripFrontend

/-! ## Step-state derivation (TransactionStatus.jsx) -/

/-- Display state of one progress step, as produced by `getStepStatus`. -/
inductive StepState
  | pending
  | active
  | completed
  | failed
deriving DecidableEq, Repr

/-- JavaScript `Array.prototype.indexOf` on a list of strings: index of the
first occurrence, `-1` when absent. -/
def jsIndexOf (l : List String) (s : String) : Int :=
  match l with
  | [] => -1
  | x :: xs =>
    if x = s then 0
    else
      let r := jsIndexOf xs s
      if r = -1 then -1 else r + 1

/-- The `statusOrder` array of `getStepStatus`: the six non-failed canonical
statuses in pipeline order.  Note that `"failed"` is NOT in this list. -/
def statusOrder : List String :=
  ["pending", "payment_processing", "payment_confirmed",
   "converting_to_usdt", "usdt_sent", "completed"]

/-- Embedding of `getStepStatus(step)` from `TransactionStatus.jsx`.  The
first argument is `transaction?.status`: `none` models a null `transaction`
(the `!transaction` guard), `some st` a loaded transaction with canonical
status `st`. -/
def getStepStatus (txStatus : Option String) (step : String) : StepState :=
  match txStatus with
  | none => .pending
  | some st =>
    let currentIndex := jsIndexOf statusOrder st
    let stepIndex := jsIndexOf statusOrder step
    if st = "failed" then
      if currentIndex ≥ stepIndex then .failed else .pending
    else if currentIndex ≥ stepIndex then .completed
    else if currentIndex + 1 = stepIndex then .active
    else .pending

/-- The `steps` array rendered by the component: the five UI-visible
milestones, in order. -/
def steps : List String :=
  ["payment_processing", "payment_confirmed", "converting_to_usdt",
   "usdt_sent", "completed"]

/-- The derived list of five step states for a given transaction status:
the component maps `getStepStatus` over `steps`. -/
def deriveSteps (txStatus : Option String) : List StepState :=
  steps.map (getStepStatus txStatus)

/-- Test whether every entry of a step-state list is `pending`. -/
def allPendingSteps : List StepState → Bool
  | [] => true
  | .pending :: t => allPendingSteps t
  | _ => false

/-- Test whether a step-state list has the shape
`completed* (active | nothing) pending*`: a block of completed steps, then
at most one active step, then only pending steps. -/
def prefixForm : List StepState → Bool
  | [] => true
  | .completed :: t => prefixForm t
  | .active :: t => allPendingSteps t
  | .pending :: t => allPendingSteps t
  | .failed :: _ => false

/-- Test whether, for status `st`, every step marked `active` has order
exactly one greater than the status order. -/
def activeOrderOk (st : String) : Bool :=
  steps.all fun sp =>
    decide (getStepStatus (some st) sp = .active →
      jsIndexOf statusOrder sp = jsIndexOf statusOrder st + 1)

/-- Modelled from the spec: the step-state list the spec claims for a failed
transaction that had previously reached non-failed status `priorX` — steps
with order at most the order of `priorX` marked failed, later steps pending.
This definition follows the SPEC wording, for comparison with `deriveSteps`
(which follows the code). -/
def specClaimedFailedSteps (priorX : String) : List StepState :=
  steps.map fun sp =>
    if jsIndexOf statusOrder sp ≤ jsIndexOf statusOrder priorX
    then .failed else .pending

/-! ## Push-channel wrapper (websocket.js) -/

/-- State of the socket.io socket, as far as this client observes it:
whether the transport handshake has completed, and its per-event listener
table (callbacks identified by numeric identity). -/
structure Socket where
  connected : Bool
  handlers : List (String × List Nat)
deriving DecidableEq, Repr

/-- Association-list lookup: the entry for a key, when one exists (the
lookup of the `Map` / emitter table). -/
def lookupL (m : List (String × List Nat)) (e : String) : Option (List Nat) :=
  match m with
  | [] => none
  | (k, v) :: rest => if k = e then some v else lookupL rest e

/-- Association-list update: replace the first binding of the key in place,
or append a new binding (the `Map.set` behaviour). -/
def setL (m : List (String × List Nat)) (e : String) (v : List Nat) :
    List (String × List Nat) :=
  match m with
  | [] => [(e, v)]
  | (k, w) :: rest =>
    if k = e then (k, v) :: rest else (k, w) :: setL rest e v

/-- Removal of the first occurrence of a callback from a callback array:
the `indexOf` + `splice(index, 1)` idiom; no change when absent. -/
def spliceOut (l : List Nat) (cb : Nat) : List Nat :=
  match l with
  | [] => []
  | x :: xs => if x = cb then xs else x :: spliceOut xs cb

/-- Registration of a callback on the socket's own emitter table
(`socket.on`): appended to the event's callback list. -/
def Socket.onEvent (s : Socket) (e : String) (cb : Nat) : Socket :=
  { s with
    handlers := setL s.handlers e ((lookupL s.handlers e).getD [] ++ [cb]) }

/-- Deregistration of a callback from the socket's emitter table
(`socket.off`): the first matching identity is removed. -/
def Socket.offEvent (s : Socket) (e : String) (cb : Nat) : Socket :=
  match lookupL s.handlers e with
  | none => s
  | some l => { s with handlers := setL s.handlers e (spliceOut l cb) }

/-- State of the `WebSocketService` singleton: the current socket (`none`
models a null `this.socket`), the `listeners` bookkeeping map, and — model
side — the log of messages emitted to the server (`socket.emit`), kept
outside the socket so that theorems can talk about what was sent even after
teardown. -/
structure WSService where
  socket : Option Socket
  listeners : List (String × List Nat)
  sent : List (String × String)
deriving DecidableEq, Repr

/-- A fresh socket as produced by `io(SOCKET_URL, ...)`: handshake not yet
completed, no application listeners registered yet. -/
def freshSocket : Socket := { connected := false, handlers := [] }

/-- Embedding of `connect()`: a no-op when `this.socket?.connected`,
otherwise a new socket is built (the transport-level handlers `connect()`
installs on it are modelled by the dispatch functions further down). -/
def WSService.connect (svc : WSService) : WSService :=
  match svc.socket with
  | some s => if s.connected then svc else { svc with socket := some freshSocket }
  | none => { svc with socket := some freshSocket }

/-- Embedding of `disconnect()`: tear down and null out the socket when one
exists. -/
def WSService.disconnect (svc : WSService) : WSService :=
  match svc.socket with
  | some _ => { svc with socket := none }
  | none => svc

/-- One `socket.emit(msg, arg)`, recorded in the model's outbound log. -/
def WSService.emit (svc : WSService) (msg arg : String) : WSService :=
  { svc with sent := svc.sent ++ [(msg, arg)] }

/-- Embedding of `joinRoom(userId)`: `socket.emit(join, userId)` only when a
socket exists. -/
def WSService.joinRoom (svc : WSService) (userId : String) : WSService :=
  match svc.socket with
  | some _ => svc.emit "join" userId
  | none => svc

/-- Embedding of `leaveRoom(userId)`: `socket.emit(leave, userId)` only when
a socket exists. -/
def WSService.leaveRoom (svc : WSService) (userId : String) : WSService :=
  match svc.socket with
  | some _ => svc.emit "leave" userId
  | none => svc

/-- Embedding of `on(event, callback)`: when a socket exists, register on
the socket and record the callback in the `listeners` map, creating the
entry when missing; when `this.socket` is null, nothing at all happens. -/
def WSService.on (svc : WSService) (event : String) (cb : Nat) : WSService :=
  match svc.socket with
  | none => svc
  | some s =>
    let withSock : WSService := { svc with socket := some (s.onEvent event cb) }
    let cur :=
      match lookupL withSock.listeners event with
      | none => []
      | some l => l
    { withSock with listeners := setL withSock.listeners event (cur ++ [cb]) }

/-- Embedding of `off(event, callback)`: when a socket exists, deregister
from the socket and remove the first matching identity from the `listeners`
entry (`indexOf` then `splice` when found); when `this.socket` is null,
nothing happens. -/
def WSService.off (svc : WSService) (event : String) (cb : Nat) : WSService :=
  match svc.socket with
  | none => svc
  | some s =>
    let withSock : WSService := { svc with socket := some (s.offEvent event cb) }
    match lookupL withSock.listeners event with
    | none => withSock
    | some l =>
      if cb ∈ l then
        { withSock with listeners := setL withSock.listeners event (spliceOut l cb) }
      else withSock

/-- The callback list recorded in the service's `listeners` map for an
event (empty when the event has no entry). -/
def WSService.listenersFor (svc : WSService) (event : String) : List Nat :=
  (lookupL svc.listeners event).getD []

/-- A service whose transport is connected, with no application listeners
registered and nothing sent yet. -/
def connectedService : WSService :=
  { socket := some { connected := true, handlers := [] },
    listeners := [], sent := [] }

/-- A service with no socket at all (before the first `connect()` or after
`disconnect()`). -/
def disconnectedService : WSService :=
  { socket := none, listeners := [], sent := [] }

/-! ## Transaction view component (TransactionStatus.jsx) -/

/-- State of one `TransactionStatus` component instance: the route id being
viewed, the `transaction` and `loading` state cells, and model-side
bookkeeping of pull-fetches (total started / still in flight).  The
`mounted` flag models the React lifetime of the state cells: a state setter
invoked after unmount is a no-op, because the cells no longer exist. -/
structure Component where
  viewId : String
  mounted : Bool
  transaction : Option String
  loading : Bool
  inFlight : Nat
  fetchesStarted : Nat
deriving DecidableEq, Repr

/-- React state setter `setTransaction`: updates the cell only while the
component is mounted (React ignores setter calls after unmount). -/
def setTransactionState (c : Component) (t : Option String) : Component :=
  if c.mounted then { c with transaction := t } else c

/-- React state setter `setLoading`: updates the cell only while mounted. -/
def setLoadingState (c : Component) (b : Bool) : Component :=
  if c.mounted then { c with loading := b } else c

/-- Embedding of `fetchTransaction()` issuing its request: one more fetch is
started and in flight (the `await` suspends until a completion event). -/
def fetchTransaction (c : Component) : Component :=
  { c with inFlight := c.inFlight + 1, fetchesStarted := c.fetchesStarted + 1 }

/-- The in-flight request of `fetchTransaction` resolving successfully with
transaction record `t`: `setTransaction(...)`, then `setLoading(false)` in
the `finally` block. -/
def completeFetchSuccess (c : Component) (t : String) : Component :=
  let c1 : Component := { c with inFlight := c.inFlight - 1 }
  setLoadingState (setTransactionState c1 (some t)) false

/-- Embedding of `handleTransactionUpdate(data)`: refetch when the event
names the viewed transaction id, otherwise ignore the event. -/
def handleTransactionUpdate (c : Component) (evtTxId : String) : Component :=
  if evtTxId = c.viewId then fetchTransaction c else c

/-- A burst of `n` push events for transaction id `evtTxId`, handled in
arrival order. -/
def applyBurst (c : Component) (evtTxId : String) : Nat → Component
  | 0 => c
  | n + 1 => applyBurst (handleTransactionUpdate c evtTxId) evtTxId n

/-- The identity of the `handleTransactionUpdate` callback the component
passes to `on` and `off` (one closure identity per mount). -/
def transactionUpdateCb : Nat := 0

/-- The component together with the shared websocket service. -/
structure ViewSystem where
  ws : WSService
  comp : Component
deriving DecidableEq, Repr

/-- Run one registered callback identity on the system; only the component's
`handleTransactionUpdate` closure is known to this model. -/
def applyCallback (sys : ViewSystem) (cb : Nat) (evtTxId : String) : ViewSystem :=
  if cb = transactionUpdateCb then
    { sys with comp := handleTransactionUpdate sys.comp evtTxId }
  else sys

/-- The socket delivering a `transaction_update` push event: each callback
registered on the live socket for that event runs in order; with no socket,
or no registered callbacks, nothing runs. -/
def dispatchTransactionUpdate (sys : ViewSystem) (evtTxId : String) : ViewSystem :=
  let cbs :=
    match sys.ws.socket with
    | none => []
    | some s => (lookupL s.handlers "transaction_update").getD []
  cbs.foldl (fun acc cb => applyCallback acc cb evtTxId) sys

/-- The component's mount effect: `fetchTransaction()` and then
`websocketService.on(transaction_update, handleTransactionUpdate)`. -/
def mountEffect (sys : ViewSystem) : ViewSystem :=
  { ws := sys.ws.on "transaction_update" transactionUpdateCb,
    comp := fetchTransaction sys.comp }

/-- Unmount: the effect cleanup
`websocketService.off(transaction_update, handleTransactionUpdate)` runs,
and the component's state cells are disposed (`mounted := false`). -/
def unmountComponent (sys : ViewSystem) : ViewSystem :=
  { ws := sys.ws.off "transaction_update" transactionUpdateCb,
    comp := { sys.comp with mounted := false } }

/-- A freshly navigated-to `TransactionStatus` page for route id `viewId`:
`useState(null)` for the transaction, `useState(true)` for loading, no
fetches yet. -/
def initComponent (viewId : String) : Component :=
  { viewId := viewId, mounted := true, transaction := none, loading := true,
    inFlight := 0, fetchesStarted := 0 }

/-- The system after navigating to the page of transaction `viewId` (mount:
initial fetch issued, handler registered) and then navigating away (unmount:
handler deregistered, state cells disposed) while the initial fetch is still
in flight. -/
def unmountedScenario (viewId : String) : ViewSystem :=
  unmountComponent (mountEffect { ws := connectedService, comp := initComponent viewId })

/-! ## Session-to-room binding (AuthContext.jsx) -/

/-- The `user` record as persisted in local storage or held in React state:
only its `_id` field matters to the channel code (`none` models a record
without an `_id` field). -/
structure StoredUser where
  _id : Option String
deriving DecidableEq, Repr

/-- Auth provider state: the in-memory `user` state, the stored `user`
record in local storage, and the websocket service. -/
structure AuthSystem where
  session : Option StoredUser
  localUser : Option StoredUser
  ws : WSService
deriving DecidableEq, Repr

/-- Embedding of `JSON.parse(localStorage.getItem(user) || ...)`: the stored
record, or an empty object (no `_id`) when nothing is stored. -/
def parsedStoredUser (ls : Option StoredUser) : StoredUser :=
  ls.getD { _id := none }

/-- The `connect` handler installed by `connect()`: the transport marks the
socket connected, then the handler body reads the persisted user record
(NOT the in-memory session) and joins its room only when an `_id` is
present. -/
def AuthSystem.onSocketConnect (sys : AuthSystem) : AuthSystem :=
  let markWs : WSService :=
    match sys.ws.socket with
    | some s => { sys.ws with socket := some { s with connected := true } }
    | none => sys.ws
  let user := parsedStoredUser sys.localUser
  match user._id with
  | some uid => { sys with ws := markWs.joinRoom uid }
  | none => { sys with ws := markWs }

/-- A sequence of `n` successive transport-level `connect` events. -/
def AuthSystem.dispatchConnects (sys : AuthSystem) : Nat → AuthSystem
  | 0 => sys
  | n + 1 => AuthSystem.dispatchConnects sys.onSocketConnect n

/-- The complete present-to-absent authentication flow: the `logout()` body
runs synchronously (`setUser(null)`, `setToken(null)`, stored records
removed, `websocketService.disconnect()`), and only afterwards does React
re-render and process the `[user]` effect — first the cleanup of the
previous effect (`leaveRoom(prevUser._id)`), then the new effect body
(`user` is now absent, so `disconnect()`). -/
def logoutFlow (sys : AuthSystem) : AuthSystem :=
  let prev := sys.session
  let sys1 : AuthSystem :=
    { session := none, localUser := none, ws := sys.ws.disconnect }
  let sys2 : AuthSystem :=
    match prev with
    | some u => { sys1 with ws := sys1.ws.leaveRoom (u._id.getD "undefined") }
    | none => sys1
  { sys2 with ws := sys2.ws.disconnect }

/-- A logged-in session for user id u1 with a connected socket whose room
was already joined. -/
def loggedInExample : AuthSystem :=
  { session := some { _id := some "u1" },
    localUser := some { _id := some "u1" },
    ws := { socket := some { connected := true, handlers := [] },
            listeners := [],
            sent := [("join", "u1")] } }

/-- A session that believes user u1 is logged in while local storage holds
no user record. -/
def staleSessionExample : AuthSystem :=
  { session := some { _id := some "u1" }, localUser := none,
    ws := connectedService }

/-- A freshly reconnecting client: session and stored record agree on user
id u1, socket present, nothing sent yet. -/
def rejoinExample : AuthSystem :=
  { session := some { _id := some "u1" },
    localUser := some { _id := some "u1" },
    ws := connectedService }

/-! ## Request-layer retry interceptor (api.js) -/

/-- Outcome of one attempt of a request, as discriminated by the response
interceptor's error handler. -/
inductive Outcome
  | success (v : Nat)
  | timeout
  | networkError
  | httpError (status : Nat) (msg : String)
deriving DecidableEq, Repr

/-- The typed error object the interceptor rejects with. -/
structure ApiError where
  message : String
  isTimeout : Bool
  isNetworkError : Bool
deriving DecidableEq, Repr

/-- The final result seen by the caller, together with how many attempts
the interceptor made. -/
inductive ApiResult
  | ok (v : Nat) (attempts : Nat)
  | fail (e : ApiError) (attempts : Nat)
deriving DecidableEq, Repr

/-- Run a request through the response interceptor: `outcomes` lists the
result of each successive attempt, the second argument is
`config.__retryCount` (`none` models it unset), the third counts attempts
already made.  A timeout (code ECONNABORTED) with no retry count yet sets
the count to 1 and reissues the request; a timeout with the count set is
rejected with `isTimeout`; network errors and HTTP errors are rejected
immediately with their respective typed objects.  `none` results only when
the outcome list is exhausted (the request is still pending). -/
def runRequest : List Outcome → Option Nat → Nat → Option ApiResult
  | [], _, _ => none
  | .success v :: _, _, n => some (.ok v (n + 1))
  | .timeout :: rest, none, n => runRequest rest (some 1) (n + 1)
  | .timeout :: _, some _, n =>
    some (.fail
      { message := "Connection timeout. The server is taking too long to respond. Please try again.",
        isTimeout := true, isNetworkError := false } (n + 1))
  | .networkError :: _, _, n =>
    some (.fail
      { message := "Cannot connect to server. Please check your internet connection or try again later.",
        isTimeout := false, isNetworkError := true } (n + 1))
  | .httpError _ msg :: _, _, n =>
    some (.fail { message := msg, isTimeout := false, isNetworkError := false } (n + 1))

end StripFrontend

namespace StripFrontend

/-! ## Theorems -/

/-- Claim C3: for every canonical status in the six-element pipeline order,
the derived five-step list is a block of `completed` steps, followed by at
most one `active` step — whose order is exactly one greater than the status
order — followed only by `pending` steps.  (`deriveSteps` is a plain
function of the status, so determinism and purity hold by construction.) -/
theorem deriveSteps_prefix_form :
    (statusOrder.all fun st =>
      prefixForm (deriveSteps (some st)) && activeOrderOk st) = true := by
  decide

/-- Claim C2, counterexample: the claim says a failed transaction that had
previously reached payment_confirmed shows the first two steps as failed;
in the code `indexOf(failed)` is `-1` on `statusOrder`, so the failed
branch yields `pending` for every step, and the derivation never equals the
spec-claimed list for any prior progress at all. -/
theorem deriveSteps_failed_counterexample :
    getStepStatus (some "failed") "payment_processing" = .pending ∧
    deriveSteps (some "failed") ≠ specClaimedFailedSteps "payment_confirmed" := by
  decide

/-- Claim C2, amended: when the canonical status is `failed`, every one of
the five steps is derived as `pending`, regardless of any progress the
transaction had previously reached (the derivation sees only the current
status, and `failed` has index `-1` in the order list, so no step is ever
marked `failed`); in particular the edge case of the claim — failure before
any step leaves all five steps pending — holds. -/
theorem deriveSteps_failed_all_pending :
    deriveSteps (some "failed") =
      [.pending, .pending, .pending, .pending, .pending] := by
  decide

/-- Claim C1, counterexample: with the initial refresh of transaction t1 in
flight, a burst of 2 further `transaction_update` events for t1 causes 3
fetches in total (the claim says exactly 2), and 3 fetches are
simultaneously in flight (the claim says at most one). -/
theorem burst_coalescing_counterexample :
    (applyBurst (fetchTransaction (initComponent "t1")) "t1" 2).fetchesStarted = 3 ∧
    (applyBurst (fetchTransaction (initComponent "t1")) "t1" 2).fetchesStarted ≠ 2 ∧
    (applyBurst (fetchTransaction (initComponent "t1")) "t1" 2).inFlight = 3 := by
  decide

/-- Helper: a burst of matching events adds exactly one started and one
in-flight fetch per event. -/
theorem applyBurst_fetch_counts (n : Nat) :
    ∀ (c : Component) (evt : String), evt = c.viewId →
      (applyBurst c evt n).fetchesStarted = c.fetchesStarted + n ∧
      (applyBurst c evt n).inFlight = c.inFlight + n := by
  induction n with
  | zero => intro c evt _; simp [applyBurst]
  | succ n ih =>
    intro c evt h
    subst h
    have hh : handleTransactionUpdate c c.viewId = fetchTransaction c := by
      simp [handleTransactionUpdate]
    show (applyBurst (handleTransactionUpdate c c.viewId) c.viewId n).fetchesStarted = _ ∧
      (applyBurst (handleTransactionUpdate c c.viewId) c.viewId n).inFlight = _
    rw [hh]
    have hx := ih (fetchTransaction c) c.viewId rfl
    refine ⟨?_, ?_⟩
    · rw [hx.1]; simp [fetchTransaction]; omega
    · rw [hx.2]; simp [fetchTransaction]; omega

/-- Claim C1, amended: the handler performs no coalescing and no in-flight
tracking at all — every push event naming the viewed transaction id starts
a fetch immediately, so a burst of N matching events arriving during an
in-flight refresh causes N additional fetches (N+1 in total, all
potentially overlapping), not 2. -/
theorem burst_fetch_amplification (c : Component) (n : Nat) :
    (applyBurst c c.viewId n).fetchesStarted = c.fetchesStarted + n ∧
    (applyBurst c c.viewId n).inFlight = c.inFlight + n :=
  applyBurst_fetch_counts n c c.viewId rfl

/-- Claim C4 (code-bug evidence): in the logout flow for a logged-in user
u1 with a connected socket, no leave message is ever sent — `logout()`
calls `disconnect()` synchronously before React runs the effect cleanup, so
`leaveRoom` executes against a null socket and emits nothing; the outbound
log still holds only the original join, and the socket is torn down. -/
theorem logout_leave_never_sent :
    (logoutFlow loggedInExample).ws.sent = [("join", "u1")] ∧
    (logoutFlow loggedInExample).ws.socket = none := by
  decide

/-- Claim C8: a request whose first attempt times out is retried exactly
once — a second timeout is not retried again and surfaces the typed error
object with `isTimeout` set after exactly 2 attempts; a timeout followed by
a success yields the value after exactly 2 attempts; network errors and
HTTP errors surface immediately, with no retry, after exactly 1 attempt. -/
theorem timeout_retry_semantics :
    (∀ rest : List Outcome,
      runRequest (.timeout :: .timeout :: rest) none 0 =
        some (.fail
          { message := "Connection timeout. The server is taking too long to respond. Please try again.",
            isTimeout := true, isNetworkError := false } 2)) ∧
    (∀ (v : Nat) (rest : List Outcome),
      runRequest (.timeout :: .success v :: rest) none 0 = some (.ok v 2)) ∧
    (∀ rest : List Outcome,
      runRequest (.networkError :: rest) none 0 =
        some (.fail
          { message := "Cannot connect to server. Please check your internet connection or try again later.",
            isTimeout := false, isNetworkError := true } 1)) ∧
    (∀ (st : Nat) (msg : String) (rest : List Outcome),
      runRequest (.httpError st msg :: rest) none 0 =
        some (.fail { message := msg, isTimeout := false, isNetworkError := false } 1)) := by
  exact ⟨fun _ => rfl, fun _ _ => rfl, fun _ => rfl, fun _ _ _ => rfl⟩

/-- Helper: looking up the key just set yields the value just set. -/
theorem lookupL_setL_self (m : List (String × List Nat)) (e : String) (v : List Nat) :
    lookupL (setL m e v) e = some v := by
  induction m with
  | nil => simp [setL, lookupL]
  | cons kv rest ih =>
    obtain ⟨k, w⟩ := kv
    by_cases h : k = e
    · simp [setL, lookupL, h]
    · simp [setL, lookupL, h, ih]

/-- Helper: setting one key leaves lookups of other keys unchanged. -/
theorem lookupL_setL_ne (m : List (String × List Nat)) (e e' : String) (v : List Nat)
    (h : e' ≠ e) : lookupL (setL m e v) e' = lookupL m e' := by
  induction m with
  | nil => simp [setL, lookupL, Ne.symm h]
  | cons kv rest ih =>
    obtain ⟨k, w⟩ := kv
    by_cases hk : k = e
    · subst hk
      simp [setL, lookupL, Ne.symm h]
    · simp [setL, lookupL, hk, ih]

/-- Helper: removing an absent callback changes nothing. -/
theorem spliceOut_not_mem (l : List Nat) (cb : Nat) (h : cb ∉ l) :
    spliceOut l cb = l := by
  induction l with
  | nil => simp [spliceOut]
  | cons x xs ih =>
    have hx : x ≠ cb := fun hh => h (hh ▸ List.mem_cons_self x xs)
    have hxs : cb ∉ xs := fun hh => h (List.mem_cons_of_mem x hh)
    simp [spliceOut, hx, ih hxs]

/-- Helper: the `listeners` map after `on` is the old map with the callback
appended to the entry of the event. -/
theorem on_listeners_eq (svc : WSService) (s : Socket) (e : String) (cb : Nat)
    (hs : svc.socket = some s) :
    (svc.on e cb).listeners = setL svc.listeners e (svc.listenersFor e ++ [cb]) := by
  unfold WSService.on
  rw [hs]
  cases h : lookupL svc.listeners e <;>
    simp [WSService.listenersFor, h]

/-- Helper: the `listeners` map after `off` has the first occurrence of the
callback removed from the entry of the event (when present). -/
theorem off_listeners_eq (svc : WSService) (s : Socket) (e : String) (cb : Nat)
    (hs : svc.socket = some s) :
    (svc.off e cb).listeners =
      match lookupL svc.listeners e with
      | none => svc.listeners
      | some l =>
        if cb ∈ l then setL svc.listeners e (spliceOut l cb) else svc.listeners := by
  unfold WSService.off
  rw [hs]
  cases h : lookupL svc.listeners e
  · simp [h]
  · rename_i l
    by_cases hm : cb ∈ l <;> simp [h, hm]

/-- Claim C7: with a live socket, `on` appends the callback to the registry
entry of its event (additivity); `off` removes exactly the first matching
callback identity from that entry and leaves every other event's entry
untouched; `off` with a callback that was never registered leaves the whole
registry unchanged (and, being a total function, raises no error); and
`on` followed by `off` of the same callback leaves an initially empty
registry entry empty again. -/
theorem on_off_listener_algebra (svc : WSService) (s : Socket) (e : String) (cb : Nat)
    (hs : svc.socket = some s) :
    ((svc.on e cb).listenersFor e = svc.listenersFor e ++ [cb]) ∧
    ((svc.off e cb).listenersFor e = spliceOut (svc.listenersFor e) cb) ∧
    (∀ e', e' ≠ e → (svc.off e cb).listenersFor e' = svc.listenersFor e') ∧
    (cb ∉ svc.listenersFor e → (svc.off e cb).listeners = svc.listeners) ∧
    (svc.listenersFor e = [] → ((svc.on e cb).off e cb).listenersFor e = []) := by
  have hon := on_listeners_eq svc s e cb hs
  have hoff := off_listeners_eq svc s e cb hs
  refine ⟨?_, ?_, ?_, ?_, ?_⟩
  · rw [WSService.listenersFor, hon, lookupL_setL_self]
    rfl
  · rw [WSService.listenersFor, hoff]
    cases h : lookupL svc.listeners e
    · simp [WSService.listenersFor, h, spliceOut]
    · rename_i l
      by_cases hm : cb ∈ l
      · simp [hm, lookupL_setL_self, WSService.listenersFor, h]
      · simp [hm, WSService.listenersFor, h, spliceOut_not_mem l cb hm]
  · intro e' he'
    rw [WSService.listenersFor, WSService.listenersFor, hoff]
    cases h : lookupL svc.listeners e
    · rfl
    · rename_i l
      by_cases hm : cb ∈ l
      · simp [hm, lookupL_setL_ne svc.listeners e e' _ he']
      · simp [hm]
  · intro hnm
    rw [hoff]
    cases h : lookupL svc.listeners e
    · rfl
    · rename_i l
      have hcb : cb ∉ l := by
        intro hc
        exact hnm (by simpa [WSService.listenersFor, h] using hc)
      simp [hcb]
  · intro hempty
    have hs' : (svc.on e cb).socket = some (s.onEvent e cb) := by
      unfold WSService.on
      rw [hs]
    have h2 := off_listeners_eq (svc.on e cb) (s.onEvent e cb) e cb hs'
    rw [WSService.listenersFor, h2, hon, hempty, lookupL_setL_self]
    simp [spliceOut, lookupL_setL_self]

/-- Witness for claim C7: on the connected service with empty registry,
registering callback 7 for `transaction_update` yields entry `[7]`,
deregistering an unregistered callback changes nothing, and registering
then deregistering leaves the entry empty. -/
theorem on_off_listener_algebra_witness :
    ((connectedService.on "transaction_update" 7).listenersFor "transaction_update" =
      connectedService.listenersFor "transaction_update" ++ [7]) ∧
    ((connectedService.off "transaction_update" 7).listeners = connectedService.listeners) ∧
    (((connectedService.on "transaction_update" 7).off "transaction_update" 7).listenersFor
      "transaction_update" = []) := by
  have h := on_off_listener_algebra connectedService
    { connected := true, handlers := [] } "transaction_update" 7 rfl
  exact ⟨h.1, h.2.2.2.1 (by decide), h.2.2.2.2 (by decide)⟩

/-- Claim C9: calling `on` while no socket exists changes nothing at all —
the subscription is recorded neither on the transport nor in the internal
`listeners` registry; it is silently dropped, not deferred. -/
theorem on_without_socket_noop (svc : WSService) (e : String) (cb : Nat)
    (hs : svc.socket = none) : svc.on e cb = svc := by
  unfold WSService.on
  rw [hs]

/-- Witness for claim C9: on the torn-down service, registering a
`transaction_update` callback is the identity. -/
theorem on_without_socket_noop_witness :
    disconnectedService.on "transaction_update" 0 = disconnectedService :=
  on_without_socket_noop disconnectedService "transaction_update" 0 rfl

/-- Claim C5: once the component has unmounted (its subscription removed by
the effect cleanup), no further view-state update occurs: the live socket
holds no handler for `transaction_update` and neither does the bookkeeping
registry, a late push event for any transaction id leaves the whole system
unchanged, and the pull-fetch that was in flight at unmount time may
complete but its result is discarded — the disposed `transaction` and
`loading` cells keep their values, because React ignores state setters of
unmounted components. -/
theorem unmount_no_further_updates (viewId evtId t : String) :
    ((unmountedScenario viewId).ws.socket =
      some { connected := true, handlers := [("transaction_update", [])] }) ∧
    (WSService.listenersFor (unmountedScenario viewId).ws "transaction_update" = []) ∧
    (dispatchTransactionUpdate (unmountedScenario viewId) evtId = unmountedScenario viewId) ∧
    ((unmountedScenario viewId).comp.inFlight = 1) ∧
    ((completeFetchSuccess (unmountedScenario viewId).comp t).transaction = none) ∧
    ((completeFetchSuccess (unmountedScenario viewId).comp t).loading = true) := by
  exact ⟨rfl, rfl, rfl, rfl, rfl, rfl⟩

/-- Helper: the connect handler leaves the session and the stored record
untouched. -/
theorem onSocketConnect_fields (sys : AuthSystem) :
    (sys.onSocketConnect).localUser = sys.localUser ∧
    (sys.onSocketConnect).session = sys.session := by
  unfold AuthSystem.onSocketConnect
  cases h : (parsedStoredUser sys.localUser)._id <;> simp [h]

/-- Helper: the connect handler keeps a live socket live, marking it
connected. -/
theorem onSocketConnect_socket (sys : AuthSystem) (s : Socket)
    (hs : sys.ws.socket = some s) :
    (sys.onSocketConnect).ws.socket = some { s with connected := true } := by
  unfold AuthSystem.onSocketConnect
  cases h : (parsedStoredUser sys.localUser)._id <;>
    simp [h, hs, WSService.joinRoom, WSService.emit]

/-- Helper: one connect event appends exactly one join for the stored user
id to the outbound log. -/
theorem onSocketConnect_sent (sys : AuthSystem) (s : Socket) (uid : String)
    (hs : sys.ws.socket = some s)
    (hid : (parsedStoredUser sys.localUser)._id = some uid) :
    (sys.onSocketConnect).ws.sent = sys.ws.sent ++ [("join", uid)] := by
  unfold AuthSystem.onSocketConnect
  simp [hs, hid, WSService.joinRoom, WSService.emit]

/-- Helper: a run of connect events adds exactly one join per event. -/
theorem dispatchConnects_join_count (n : Nat) :
    ∀ (sys : AuthSystem) (s : Socket) (uid : String),
      sys.ws.socket = some s →
      (parsedStoredUser sys.localUser)._id = some uid →
      (sys.dispatchConnects n).ws.sent.count ("join", uid) =
        sys.ws.sent.count ("join", uid) + n := by
  induction n with
  | zero => intro sys s uid _ _; simp [AuthSystem.dispatchConnects]
  | succ n ih =>
    intro sys s uid hs hid
    have h1 := onSocketConnect_sent sys s uid hs hid
    have h2 := onSocketConnect_socket sys s hs
    have h3 : (parsedStoredUser (sys.onSocketConnect).localUser)._id = some uid := by
      rw [(onSocketConnect_fields sys).1]; exact hid
    show (AuthSystem.dispatchConnects sys.onSocketConnect n).ws.sent.count ("join", uid) = _
    rw [ih sys.onSocketConnect { s with connected := true } uid h2 h3, h1]
    simp [List.count_append]
    omega

/-- Claim C6: every transport-level connect event makes the handler reissue
the room join for the stored user id exactly once — one join message is
appended per event, and a run of n connect events in quick succession
yields exactly n joins, never more (the handler is installed once per
socket, so no duplicates accumulate). -/
theorem reconnect_rejoins_once (sys : AuthSystem) (s : Socket) (uid : String) (n : Nat)
    (hs : sys.ws.socket = some s)
    (hid : (parsedStoredUser sys.localUser)._id = some uid) :
    ((sys.onSocketConnect).ws.sent = sys.ws.sent ++ [("join", uid)]) ∧
    ((sys.dispatchConnects n).ws.sent.count ("join", uid) =
      sys.ws.sent.count ("join", uid) + n) :=
  ⟨onSocketConnect_sent sys s uid hs hid,
   dispatchConnects_join_count n sys s uid hs hid⟩

/-- Witness for claim C6: for the reconnecting client bound to user u1, one
connect event appends exactly one join, and three connect events yield
exactly three joins. -/
theorem reconnect_rejoins_once_witness :
    ((rejoinExample.onSocketConnect).ws.sent = rejoinExample.ws.sent ++ [("join", "u1")]) ∧
    ((rejoinExample.dispatchConnects 3).ws.sent.count ("join", "u1") =
      rejoinExample.ws.sent.count ("join", "u1") + 3) :=
  reconnect_rejoins_once rejoinExample { connected := true, handlers := [] } "u1" 3 rfl rfl

/-- Claim C10: the id joined on a connect event is the `_id` of the user
record parsed from persisted local storage — when that record provides an
`_id` the handler appends exactly the join for it, when the record is
absent or lacks an `_id` no join is issued — and the handler's effect on
the service is independent of the in-memory session state. -/
theorem connect_join_uses_stored_id (sys : AuthSystem) (s : Socket)
    (hs : sys.ws.socket = some s) :
    ((sys.onSocketConnect).ws.sent =
      match (parsedStoredUser sys.localUser)._id with
      | some uid => sys.ws.sent ++ [("join", uid)]
      | none => sys.ws.sent) ∧
    (∀ sess : Option StoredUser,
      (AuthSystem.onSocketConnect { sys with session := sess }).ws =
        (sys.onSocketConnect).ws) := by
  constructor
  · cases hid : (parsedStoredUser sys.localUser)._id
    · unfold AuthSystem.onSocketConnect
      simp [hs, hid]
    · exact onSocketConnect_sent sys s _ hs hid
  · intro sess
    unfold AuthSystem.onSocketConnect
    cases h : (parsedStoredUser sys.localUser)._id <;> simp [h]

/-- Witness for claim C10: with user u1 in the in-memory session but no
record in local storage, a connect event issues no join at all. -/
theorem connect_join_uses_stored_id_witness :
    (staleSessionExample.onSocketConnect).ws.sent = staleSessionExample.ws.sent :=
  (connect_join_uses_stored_id staleSessionExample
    { connected := true, handlers := [] } rfl).1

end StripFrontend
